import Mathlib

set_option autoImplicit false
set_option maxHeartbeats 1000000
set_option maxRecDepth 4000

/-!
Verification development for the webcam DIAL capture application
(`src/app.py`).  The script is shallowly embedded: Python dictionaries and
JSON payloads become an inductive `Py` value type, the Streamlit rendering
calls become a pure function producing a list of display sections, the
camera / filesystem / HTTP effects become explicit environment records and
event traces, and the Streamlit session state becomes an explicit record
threaded through the capture interaction.
-/

/-- Python-like dynamically typed values, covering the subset the app
manipulates: JSON payloads, the normalized insights mapping and rendered
content.  A Python `dict` is modelled as an association list (Python dict
keys are unique; lookups take the first match, which coincides). -/
inductive Py where
  | none
  | bool (b : Bool)
  | int (n : Int)
  | str (s : String)
  | list (xs : List Py)
  | dict (entries : List (String × Py))

/-- Python truthiness (`if v:`): `None`, `False`, `0`, empty string /
list / dict are falsy, everything else truthy. -/
def Py.truthy : Py → Bool
  | .none => false
  | .bool b => b
  | .int n => n != 0
  | .str s => !s.isEmpty
  | .list xs => !xs.isEmpty
  | .dict xs => !xs.isEmpty

/-- Python `v is None`. -/
def Py.isNone : Py → Bool
  | .none => true
  | _ => false

/-- Python `isinstance(v, dict)`. -/
def Py.isDict : Py → Bool
  | .dict _ => true
  | _ => false

/-- Python `isinstance(v, list)`. -/
def Py.isList : Py → Bool
  | .list _ => true
  | _ => false

/-- Python `len(v)`: defined on sized values (str, list, dict), raises
`TypeError` otherwise — modeled as `Option.none`. -/
def pyLen : Py → Option Nat
  | .str s => some s.length
  | .list xs => some xs.length
  | .dict xs => some xs.length
  | _ => Option.none

/-- Python `d.get(k, dflt)` on a dict: the stored value when the key is
present (even when that value is `None`), otherwise the default. -/
def pyGet (d : List (String × Py)) (k : String) (dflt : Py) : Py :=
  (d.lookup k).getD dflt

/-- Insight extraction performed by `run_dial_inference` on a parsed JSON
mapping (src/app.py lines 178-196): a dict literal with defaults for
`status`/`predictions`/`confidence`/`detections`/`labels`/`metadata`,
`raw_response` bound to the full payload, then `results`/`analysis`/
`objects` copied only when present in the payload. -/
def extractInsights (json_data : List (String × Py)) : List (String × Py) :=
  let insights : List (String × Py) := [
    ("status", pyGet json_data "status" (.str "unknown")),
    ("predictions", pyGet json_data "predictions" (.list [])),
    ("confidence", pyGet json_data "confidence" .none),
    ("detections", pyGet json_data "detections" (.list [])),
    ("labels", pyGet json_data "labels" (.list [])),
    ("metadata", pyGet json_data "metadata" (.dict [])),
    ("raw_response", .dict json_data)]
  let insights := insights ++
    (match json_data.lookup "results" with
     | some v => [("results", v)]
     | Option.none => [])
  let insights := insights ++
    (match json_data.lookup "analysis" with
     | some v => [("analysis", v)]
     | Option.none => [])
  let insights := insights ++
    (match json_data.lookup "objects" with
     | some v => [("objects", v)]
     | Option.none => [])
  insights

/-- Result of the HTTP POST issued by `run_dial_inference`: either a
transport-level failure (`requests.exceptions.RequestException` that is not
an `HTTPError`) or a response with a status code, a body text (as a char
list, so Python slicing `text[:200]` is `List.take 200`) and the outcome of
JSON-parsing the body (`Option.none` when `response.json()` raises
`ValueError`). -/
inductive HttpResult where
  | transportError
  | response (status : Nat) (text : List Char) (json : Option Py)

/-- Environment for one `run_dial_inference` call: whether
`open(image_path, "rb")` succeeds, and what the HTTP layer returns. -/
structure InferEnv where
  fileExists : Bool
  http : HttpResult

/-- Outcome of `run_dial_inference`: the four documented failure kinds
(`FileNotFoundError`, re-raised `HTTPError`, re-raised `RequestException`,
re-raised `ValueError`), success with the normalized insights dict, and
`typeError` for the `AttributeError` raised (uncaught inside the function)
when a 2xx body parses to a JSON value that is not a mapping, so
`json_data.get(...)` has no `get` attribute. -/
inductive InferOutcome where
  | notFound (path : String)
  | httpError (status : Nat) (excerpt : List Char)
  | networkError
  | malformedResponse (excerpt : List Char)
  | typeError
  | success (insights : List (String × Py))

/-- Holds on the four failure kinds of the documented taxonomy. -/
def InferOutcome.isClassifiedFailure : InferOutcome → Bool
  | .notFound _ => true
  | .httpError _ _ => true
  | .networkError => true
  | .malformedResponse _ => true
  | _ => false

/-- Holds exactly on `success`. -/
def InferOutcome.isSuccess : InferOutcome → Bool
  | .success _ => true
  | _ => false

/-- Model of `run_dial_inference` (src/app.py lines 151-207).  An `open` raising
`FileNotFoundError` is re-raised with the offending path; `requests`
`raise_for_status` raises `HTTPError` exactly for 4xx/5xx status codes and
the handler re-raises carrying `response.text[:200]`; other
`RequestException`s are re-raised as the network failure; a body that fails
JSON parsing raises `ValueError` carrying `response.text[:200]`; a parsed
non-mapping body hits `json_data.get` and raises `AttributeError`
(`typeError`), which no handler in the function catches. -/
def run_dial_inference (env : InferEnv) (image_path : String) : InferOutcome :=
  if env.fileExists = false then
    .notFound image_path
  else
    match env.http with
    | .transportError => .networkError
    | .response status text json =>
      if 400 ≤ status ∧ status < 600 then
        .httpError status (text.take 200)
      else
        match json with
        | Option.none => .malformedResponse (text.take 200)
        | some (.dict d) => .success (extractInsights d)
        | some _ => .typeError

/-!
## Insights Presenter (`display_dial_insights`, src/app.py lines 13-148)

Each Streamlit output block becomes one display `Section`.  The Python `str`
conversion (an external builtin) is abstracted: rendered content carries
the underlying `Py` value(s) it is computed from.  Every field block in
the source sits in its own `try`/`except` whose handler emits an error
message in the position of that block; the only reachable in-block exception is
`len()` on a truthy unsized value (`TypeError`), modelled by `secErr`.
-/

/-- The kinds of display sections, in their fixed rendering order. -/
inductive SectionKind where
  | caption
  | status
  | confidence
  | predictions
  | detections
  | labels
  | results
  | analysis
  | objects
  | metadata
  | rawResponse

/-- Position of a section kind in the fixed rendering order. -/
def kindSlot : SectionKind → Nat
  | .caption => 0
  | .status => 1
  | .confidence => 2
  | .predictions => 3
  | .detections => 4
  | .labels => 5
  | .results => 6
  | .analysis => 7
  | .objects => 8
  | .metadata => 9
  | .rawResponse => 10

/-- One rendered display section: a normal section with its content, a
per-field error section (the per-block `except` handler fired), or the
single validation-error section for non-dict input. -/
inductive Section where
  | sec (k : SectionKind) (content : Py)
  | secErr (k : SectionKind)
  | invalid (msg : String)

/-- Slot of a rendered section (the validation-error section only ever
appears alone, so its slot is irrelevant; it is given 0). -/
def slotOf : Section → Nat
  | .sec k _ => kindSlot k
  | .secErr k => kindSlot k
  | .invalid _ => 0

/-- The `st.error` text for a non-dict argument (src/app.py line 23). -/
def invalidInsightsMsg : String := "Invalid insights data: Expected a dictionary."

/-- Caption block: `if snapshot_file: st.caption(...)` — rendered only for
a present, truthy (non-empty) snapshot path. -/
def captionSec (snapshot_file : Option String) : List Section :=
  match snapshot_file with
  | some f => if f.isEmpty then [] else [.sec .caption (.str f)]
  | Option.none => []

/-- Status block: guarded by `insights.get` of the status key under Python truthiness. -/
def statusSec (d : List (String × Py)) : List Section :=
  if (pyGet d "status" .none).truthy then
    [.sec .status (pyGet d "status" .none)]
  else []

/-- Confidence block: guarded by an `is not None` test on `insights.get` of
the confidence key — any non-`None` value is rendered (numeric values as a
percentage, others via plain text; both carry the value). -/
def confidenceSec (d : List (String × Py)) : List Section :=
  if (pyGet d "confidence" .none).isNone then []
  else [.sec .confidence (pyGet d "confidence" .none)]

/-- Wrapping rule for table rows: mappings are kept, any other item is
wrapped as a one-key mapping (key `prediction` bound to `str(pred)`, and its
`detection`/`object` analogues). -/
def wrapRow (key : String) (p : Py) : Py :=
  match p with
  | .dict _ => p
  | _ => .dict [(key, p)]

/-- Common shape of the predictions / detections / objects blocks:
`if insights.get(k) and len(insights[k]) > 0:`, then a table of wrapped
rows for a list value, plain text otherwise; `len()` on a truthy unsized
value raises and the handler of the block emits an error section. -/
def tableSec (kind : SectionKind) (rowKey : String) (k : String)
    (d : List (String × Py)) : List Section :=
  if (pyGet d k .none).truthy then
    match pyLen (pyGet d k .none) with
    | Option.none => [.secErr kind]
    | some n =>
      if n > 0 then
        match pyGet d k .none with
        | .list xs => [.sec kind (.list (xs.map (wrapRow rowKey)))]
        | _ => [.sec kind (pyGet d k .none)]
      else []
  else []

/-- Predictions block (src/app.py lines 44-60). -/
def predictionsSec (d : List (String × Py)) : List Section :=
  tableSec .predictions "prediction" "predictions" d

/-- Detections block (src/app.py lines 62-78). -/
def detectionsSec (d : List (String × Py)) : List Section :=
  tableSec .detections "detection" "detections" d

/-- Labels block (src/app.py lines 80-90): same guard as the table blocks;
a list is rendered as a comma-joined line and anything else as text (both
carry the value). -/
def labelsSec (d : List (String × Py)) : List Section :=
  if (pyGet d "labels" .none).truthy then
    match pyLen (pyGet d "labels" .none) with
    | Option.none => [.secErr .labels]
    | some n => if n > 0 then [.sec .labels (pyGet d "labels" .none)] else []
  else []

/-- Results block (src/app.py lines 92-101): guarded by truthiness of
`insights.get` of the results key, rendered as structured data for
dict/list and as text otherwise. -/
def resultsSec (d : List (String × Py)) : List Section :=
  if (pyGet d "results" .none).truthy then
    [.sec .results (pyGet d "results" .none)]
  else []

/-- Analysis block (src/app.py lines 103-112), same rule as results. -/
def analysisSec (d : List (String × Py)) : List Section :=
  if (pyGet d "analysis" .none).truthy then
    [.sec .analysis (pyGet d "analysis" .none)]
  else []

/-- Objects block (src/app.py lines 114-130). -/
def objectsSec (d : List (String × Py)) : List Section :=
  tableSec .objects "object" "objects" d

/-- Metadata block (src/app.py lines 132-138): guarded by truthiness of
the metadata value (checked twice by the source, equivalently once). -/
def metadataSec (d : List (String × Py)) : List Section :=
  if (pyGet d "metadata" .none).truthy then
    [.sec .metadata (pyGet d "metadata" .none)]
  else []

/-- Raw-response block (src/app.py lines 140-145): always rendered, in a
collapsed expander, showing `insights.get` of the raw response key with an
empty-dict default. -/
def rawResponseSec (d : List (String × Py)) : List Section :=
  [.sec .rawResponse (pyGet d "raw_response" (.dict []))]

/-- Model of `display_dial_insights` (src/app.py lines 13-148): for a non-dict
argument, a single validation-error section; for a dict, the caption (when
a truthy snapshot path is supplied) followed by the field blocks in the
fixed source order, ending with the always-rendered raw-response block.
The function is total — the source wraps everything in `try`/`except`, so
rendering never halts the surrounding workflow. -/
def display_dial_insights (insights : Py) (snapshot_file : Option String) :
    List Section :=
  match insights with
  | .dict d =>
    captionSec snapshot_file ++ statusSec d ++ confidenceSec d ++
      predictionsSec d ++ detectionsSec d ++ labelsSec d ++ resultsSec d ++
      analysisSec d ++ objectsSec d ++ metadataSec d ++ rawResponseSec d
  | _ => [.invalid invalidInsightsMsg]

/-!
## Frame Acquirer (src/app.py lines 248-406)

Camera handles and UI messages are modelled as an event trace.  `cv2`
drawing calls are recorded as draw operations on an in-memory image value
(rasterization is the job of the external library); `cv2.VideoCapture` handles
are numbered, and `open`/`read`/`release` on them become trace events.
Only `st.error`/`st.info` messages appear in the trace (progress-bar and
status-text updates are transient UI feedback with no behavioural
content).
-/

/-- A recorded `cv2` drawing operation (colors are the raw BGR triples the
source passes). -/
inductive DrawOp where
  | rectangle (pt1 pt2 : Nat × Nat) (color : Nat × Nat × Nat)
      (thickness : Nat)
  | putText (text : String) (org : Nat × Nat) (fontFace : Nat)
      (fontScale : Nat) (color : Nat × Nat × Nat) (thickness : Nat)

/-- The OpenCV constant `cv2.FONT_HERSHEY_SIMPLEX` (value 0). -/
def FONT_HERSHEY_SIMPLEX : Nat := 0

/-- An in-memory raster: shape and dtype from `np.zeros`, plus the list of
drawing operations applied to it. -/
structure Image where
  height : Nat
  width : Nat
  channels : Nat
  bitsPerChannel : Nat
  ops : List DrawOp

/-- Model of `np.zeros((h, w, c), dtype=np.uint8)`. -/
def npZerosU8 (h w c : Nat) : Image :=
  { height := h, width := w, channels := c, bitsPerChannel := 8, ops := [] }

/-- Model of `cv2.rectangle(img, pt1, pt2, color, thickness)` (records the op). -/
def cv2Rectangle (img : Image) (pt1 pt2 : Nat × Nat)
    (color : Nat × Nat × Nat) (thickness : Nat) : Image :=
  { img with ops := img.ops ++ [.rectangle pt1 pt2 color thickness] }

/-- Model of `cv2.putText` with its argument list (records the op). -/
def cv2PutText (img : Image) (text : String) (org : Nat × Nat)
    (fontFace fontScale : Nat) (color : Nat × Nat × Nat)
    (thickness : Nat) : Image :=
  { img with ops := img.ops ++ [.putText text org fontFace fontScale color thickness] }

/-- The test image synthesized in Test/Demo mode (src/app.py lines
254-259): a zeroed 480x640x3 uint8 raster, a green rectangle outline and
two overlay text lines. -/
def generateTestImage : Image :=
  let img := npZerosU8 480 640 3
  let img := cv2Rectangle img (50, 50) (590, 430) (0, 255, 0) 2
  let img := cv2PutText img "Test Image" (200, 240)
    FONT_HERSHEY_SIMPLEX 2 (255, 255, 255) 3
  let img := cv2PutText img "Webcam DIAL App" (150, 300)
    FONT_HERSHEY_SIMPLEX 1 (0, 255, 255) 2
  img

/-- A captured frame: the synthetic test image, or a frame read from a
camera capture session (identified by its handle). -/
inductive Frame where
  | test (img : Image)
  | captured (handle : Nat)

/-- Observable events of one capture interaction. -/
inductive Event where
  | openCap (h : Nat)
  | readCap (h : Nat)
  | releaseCap (h : Nat)
  | errorMsg (msg : String)
  | infoMsg (msg : String)
  | mkdirCall
  | imwriteCall (filename : String)
  | displayFrame (caption : String)
  | inferenceCall (path : String)
  | renderInsights (secs : List Section)

/-- Result of the Frame Acquirer: the frame (or `none` on failure), the
event trace, and the caption used when the frame is later displayed. -/
structure AcqResult where
  frame : Option Frame
  trace : List Event
  caption : String

/-- Environment for network-camera acquisition: whether the opened session
reports `isOpened()` and whether its single `read()` yields a frame. -/
structure NetEnv where
  opens : Bool
  readOk : Bool

/-- Network-mode acquisition (src/app.py lines 271-319): empty trimmed URL
fails fast with no session; otherwise one session (handle 0) is opened,
read once when `isOpened()`, and released in the `finally` block on every
path. -/
def acquireNetwork (camera_url : String) (env : NetEnv) : AcqResult :=
  if camera_url.trim = "" then
    { frame := Option.none,
      trace := [.errorMsg "Please enter a camera URL."],
      caption := "" }
  else if env.opens then
    if env.readOk then
      { frame := some (.captured 0),
        trace := [.openCap 0, .readCap 0, .releaseCap 0],
        caption := "Network Camera: " ++ camera_url.take 50 ++ "..." }
    else
      { frame := Option.none,
        trace := [.openCap 0, .readCap 0,
          .errorMsg "Failed to capture frame from network camera.",
          .releaseCap 0],
        caption := "" }
  else
    { frame := Option.none,
      trace := [.openCap 0,
        .errorMsg ("Unable to connect to camera URL: " ++ camera_url),
        .infoMsg "Make sure the URL is correct and the camera is accessible.",
        .releaseCap 0],
      caption := "" }

/-- Environment for local-webcam acquisition: for each device index 0-3,
whether `cv2.VideoCapture(idx)` reports `isOpened()` and whether its probe
`read()` yields a frame, plus the outcome of the post-probe `read()` on
the selected session. -/
structure LocalEnv where
  opens0 : Bool
  opens1 : Bool
  opens2 : Bool
  opens3 : Bool
  read0 : Bool
  read1 : Bool
  read2 : Bool
  read3 : Bool
  finalRead : Bool
deriving DecidableEq

/-- The type `LocalEnv` is just nine booleans. -/
def localEnvEquiv :
    LocalEnv ≃ (Bool × Bool × Bool × Bool × Bool × Bool × Bool × Bool × Bool) where
  toFun e := (e.opens0, e.opens1, e.opens2, e.opens3,
    e.read0, e.read1, e.read2, e.read3, e.finalRead)
  invFun p := ⟨p.1, p.2.1, p.2.2.1, p.2.2.2.1, p.2.2.2.2.1,
    p.2.2.2.2.2.1, p.2.2.2.2.2.2.1, p.2.2.2.2.2.2.2.1, p.2.2.2.2.2.2.2.2⟩
  left_inv _ := rfl
  right_inv _ := rfl

instance : Fintype LocalEnv := Fintype.ofEquiv _ localEnvEquiv.symm

/-- The `isOpened()` result for device index `i`. -/
def LocalEnv.opensAt (e : LocalEnv) : Nat → Bool
  | 0 => e.opens0
  | 1 => e.opens1
  | 2 => e.opens2
  | 3 => e.opens3
  | _ => false

/-- Probe `read()` result for device index `i`. -/
def LocalEnv.readsAt (e : LocalEnv) : Nat → Bool
  | 0 => e.read0
  | 1 => e.read1
  | 2 => e.read2
  | 3 => e.read3
  | _ => false

/-- The probe loop `for idx in range(4)` (src/app.py lines 331-362): each
index opens a session (handle = index); an opened session is read exactly
once; the first successful read selects the index, breaking out of the
loop with that session kept open; every other session is released before
the next index is tried. -/
def probeFrom (env : LocalEnv) : List Nat → Option Nat × List Event
  | [] => (Option.none, [])
  | i :: rest =>
    if env.opensAt i then
      if env.readsAt i then
        (some i, [.openCap i, .readCap i])
      else
        let (r, tr) := probeFrom env rest
        (r, [.openCap i, .readCap i, .releaseCap i] ++ tr)
    else
      let (r, tr) := probeFrom env rest
      (r, [.openCap i, .releaseCap i] ++ tr)

/-- Selected device index of the probe. -/
def probeSelected (env : LocalEnv) : Option Nat :=
  (probeFrom env [0, 1, 2, 3]).1

/-- Event trace of the probe. -/
def probeTrace (env : LocalEnv) : List Event :=
  (probeFrom env [0, 1, 2, 3]).2

/-- The `st.error` text shown when no device index yielded a frame
(src/app.py line 389). -/
def webcamUnavailableMsg : String :=
  "Unable to access webcam. Please make sure your webcam is connected and not being used by another application."

/-- The remediation `st.info` suggesting the network-camera fallback
(src/app.py line 393). -/
def networkFallbackMsg : String :=
  "3. Use a network camera stream instead (select \x27Network Camera URL\x27 option above)"

/-- Local-mode acquisition (src/app.py lines 321-406): the probe, then —
when a session was selected — one further `read()` on it and a release in
the `finally` block; when no session was selected, the device-unavailable
error with its remediation guidance (and nothing to release). -/
def acquireLocal (env : LocalEnv) : AcqResult :=
  match probeFrom env [0, 1, 2, 3] with
  | (some k, tr) =>
    if env.finalRead then
      { frame := some (.captured k),
        trace := tr ++ [.readCap k, .releaseCap k],
        caption := "Local Camera " ++ toString k }
    else
      { frame := Option.none,
        trace := tr ++ [.readCap k,
          .errorMsg "Failed to capture frame from webcam.",
          .releaseCap k],
        caption := "" }
  | (Option.none, tr) =>
    { frame := Option.none,
      trace := tr ++
        [.errorMsg webcamUnavailableMsg,
         .infoMsg "**Note for WSL2 users:** WSL2 doesn\x27t have direct access to USB devices. You may need to:",
         .infoMsg "1. Use USB/IP to forward the webcam to WSL2, or",
         .infoMsg "2. Run this app on Windows directly, or",
         .infoMsg networkFallbackMsg],
      caption := "" }

/-- Test/Demo-mode acquisition (src/app.py lines 248-269): synthesizes the
test image; no external device, no session, no input — always succeeds. -/
def acquireTest : AcqResult :=
  { frame := some (.test generateTestImage),
    trace := [],
    caption := "Test/Demo Image" }

/-!
## Workflow Orchestrator (src/app.py lines 210-574)

The Streamlit session state becomes an explicit record; one press of the
"Capture Snapshot" button becomes `captureInteraction`, and the
end-of-script redisplay of stored insights becomes `rerenderStored`.
-/

/-- The camera-source radio selection. -/
inductive CameraSource where
  | localWebcam
  | networkCamera
  | testMode

/-- The persisted session state (src/app.py lines 229-233):
`st.session_state.dial_insights` and `st.session_state.last_snapshot_file`. -/
structure SessionState where
  dial_insights : Option Py
  last_snapshot_file : Option String

/-- Environment of one capture interaction: the UI selections and every
external outcome the interaction can observe. `timestamp` stands for the
`datetime.now().strftime("%Y%m%d_%H%M%S")` result. -/
structure AppEnv where
  source : CameraSource
  cameraUrl : String
  netEnv : NetEnv
  localEnv : LocalEnv
  dirExists : Bool
  mkdirOk : Bool
  imwriteOk : Bool
  timestamp : String
  enableDialInference : Bool
  inferEnv : InferEnv

/-- The snapshot filename computed at src/app.py line 430:
`f"{snapshots_dir}/snapshot_{timestamp}.jpg"`. -/
def snapshotName (timestamp : String) : String :=
  "snapshots/snapshot_" ++ timestamp ++ ".jpg"

/-- The `st.error` message for a failed `cv2.imwrite` (src/app.py line 444). -/
def saveErrorMsg (filename : String) : String :=
  "Failed to save image to " ++ filename ++ ". Check file permissions and disk space."

/-- The `st.error` message prefix for a failed `os.makedirs` (src/app.py
line 421; the OS error detail appended by the source is external). -/
def mkdirErrorMsg : String := "Error creating snapshots directory"

/-- Acquisition dispatch on the selected camera source (src/app.py lines
248-406). -/
def acquireFrame (env : AppEnv) : AcqResult :=
  match env.source with
  | .testMode => acquireTest
  | .networkCamera => acquireNetwork env.cameraUrl env.netEnv
  | .localWebcam => acquireLocal env.localEnv

/-- The post-acquisition pipeline for an acquired frame (src/app.py lines
409-557): create the snapshots directory when missing (abort on failure),
compute the timestamped filename, `cv2.imwrite` (abort on failure —
before any frame display and before any inference call), display the
frame, record the snapshot path in session state, then — when inference
is enabled — run `run_dial_inference`, storing the insights and rendering
them on success and clearing only `dial_insights` on failure.  The state
passed in is the one cleared at the start of the interaction. -/
def persistAndInfer (env : AppEnv) (caption : String) :
    SessionState × List Event :=
  let cleared : SessionState :=
    { dial_insights := Option.none, last_snapshot_file := Option.none }
  let mkdirTrace : List Event := if env.dirExists then [] else [.mkdirCall]
  if env.dirExists = false ∧ env.mkdirOk = false then
    (cleared, mkdirTrace ++ [.errorMsg mkdirErrorMsg])
  else
    let filename := snapshotName env.timestamp
    let tr := mkdirTrace ++ [.imwriteCall filename]
    if env.imwriteOk = false then
      (cleared, tr ++ [.errorMsg (saveErrorMsg filename)])
    else
      let tr := tr ++ [.displayFrame caption,
        .infoMsg ("Snapshot saved as: " ++ filename)]
      let saved : SessionState :=
        { dial_insights := Option.none, last_snapshot_file := some filename }
      if env.enableDialInference then
        let tr := tr ++ [.inferenceCall filename]
        match run_dial_inference env.inferEnv filename with
        | .success ins =>
          let secs := display_dial_insights (.dict ins) (some filename)
          ({ dial_insights := some (.dict ins),
             last_snapshot_file := some filename },
           tr ++ [.renderInsights secs])
        | .notFound p =>
          (saved, tr ++ [.errorMsg ("Image file not found: " ++ p),
            .infoMsg "The snapshot file may have been deleted or moved."])
        | .httpError status excerpt =>
          (saved, tr ++ [.errorMsg ("HTTP error from DIAL API: status "
              ++ toString status ++ " " ++ String.mk excerpt),
            .infoMsg "Make sure the DIAL API endpoint is correctly configured and accessible."])
        | .networkError =>
          (saved, tr ++ [.errorMsg "Network error connecting to DIAL API",
            .infoMsg "Check your internet connection and API endpoint URL."])
        | .malformedResponse excerpt =>
          (saved, tr ++ [.errorMsg ("Invalid API response: "
              ++ String.mk excerpt),
            .infoMsg "The API response may not be in the expected format."])
        | .typeError =>
          (saved, tr ++ [.errorMsg "Unexpected error running DIAL inference",
            .infoMsg "Make sure the DIAL API endpoint is correctly configured and accessible."])
      else
        (saved, tr)

/-- One press of "Capture Snapshot" (src/app.py lines 235-563): both
session-state variables are cleared first (lines 238-239), the frame is
acquired, and — when a frame was produced — the persistence-and-inference
pipeline runs. -/
def captureInteraction (env : AppEnv) (_s0 : SessionState) :
    SessionState × List Event :=
  let cleared : SessionState :=
    { dial_insights := Option.none, last_snapshot_file := Option.none }
  let a := acquireFrame env
  match a.frame with
  | Option.none => (cleared, a.trace)
  | some _ =>
    let (s, tr) := persistAndInfer env a.caption
    (s, a.trace ++ tr)

/-- The end-of-script redisplay (src/app.py lines 566-571): when
`dial_insights` is not `None` and `last_snapshot_file` is truthy, the
stored insights are rendered again under the "Latest DIAL API Insights"
heading. -/
def rerenderStored (s : SessionState) : List Section :=
  match s.dial_insights with
  | Option.none => []
  | some i =>
    match s.last_snapshot_file with
    | Option.none => []
    | some f => if f.isEmpty then [] else display_dial_insights i (some f)

/-!
## Trace observations
-/

/-- Handles of `openCap` events, in order. -/
def opensOf (t : List Event) : List Nat :=
  t.filterMap fun e => match e with
    | .openCap h => some h
    | _ => Option.none

/-- Handles of `releaseCap` events, in order. -/
def releasesOf (t : List Event) : List Nat :=
  t.filterMap fun e => match e with
    | .releaseCap h => some h
    | _ => Option.none

/-- Number of `readCap` events on handle `h`. -/
def countReads (t : List Event) (h : Nat) : Nat :=
  (t.filter fun e => match e with
    | .readCap j => j == h
    | _ => false).length

/-- Number of `openCap` events on handle `h`. -/
def countOpens (t : List Event) (h : Nat) : Nat :=
  (t.filter fun e => match e with
    | .openCap j => j == h
    | _ => false).length

/-- Whether the trace contains a `displayFrame` event. -/
def hasDisplayFrame (t : List Event) : Bool :=
  t.any fun e => match e with
    | .displayFrame _ => true
    | _ => false

/-- Whether the trace contains an `inferenceCall` event. -/
def hasInferenceCall (t : List Event) : Bool :=
  t.any fun e => match e with
    | .inferenceCall _ => true
    | _ => false

/-- Whether the trace contains an `imwriteCall` event. -/
def hasImwrite (t : List Event) : Bool :=
  t.any fun e => match e with
    | .imwriteCall _ => true
    | _ => false

/-- Whether the trace contains `st.error(msg)`. -/
def hasErrorMsg (t : List Event) (msg : String) : Bool :=
  t.any fun e => match e with
    | .errorMsg m => m == msg
    | _ => false

/-- Whether the trace contains `st.info(msg)`. -/
def hasInfoMsg (t : List Event) (msg : String) : Bool :=
  t.any fun e => match e with
    | .infoMsg m => m == msg
    | _ => false

/-- Every acquired capture session is released: the multiset of released
handles equals the multiset of opened handles. -/
def tracesBalanced (t : List Event) : Prop :=
  (opensOf t : Multiset Nat) = (releasesOf t : Multiset Nat)

instance (t : List Event) : Decidable (tracesBalanced t) := by
  unfold tracesBalanced; infer_instance

/-!
## Theorems
-/

/-- C8: Test-mode acquisition always succeeds (it is a constant of the
environment — no external device or input occurs in it) and
deterministically produces the 480×640×3 8-bit raster with the green
rectangle outline and the two overlay text lines "Test Image" and
"Webcam DIAL App" at their fixed positions. -/
theorem c8_test_mode_deterministic :
    acquireTest.frame = some (.test generateTestImage)
    ∧ generateTestImage.height = 480
    ∧ generateTestImage.width = 640
    ∧ generateTestImage.channels = 3
    ∧ generateTestImage.bitsPerChannel = 8
    ∧ generateTestImage.ops =
        [.rectangle (50, 50) (590, 430) (0, 255, 0) 2,
         .putText "Test Image" (200, 240) FONT_HERSHEY_SIMPLEX 2
           (255, 255, 255) 3,
         .putText "Webcam DIAL App" (150, 300) FONT_HERSHEY_SIMPLEX 1
           (0, 255, 255) 2] :=
  ⟨rfl, rfl, rfl, rfl, rfl, rfl⟩

/-- C2: for every parsed JSON mapping from a successful response, the
normalized insights mapping defaults `status` to `"unknown"`,
`predictions`/`detections`/`labels` to empty lists, `metadata` to an empty
mapping and `confidence` to `None` when the corresponding payload key is
absent; it contains `results`/`analysis`/`objects` exactly when the
payload does; and `raw_response` is the full original payload. -/
theorem c2_normalization_defaults (d : List (String × Py)) :
    (extractInsights d).lookup "raw_response" = some (.dict d)
    ∧ (d.lookup "status" = Option.none →
        (extractInsights d).lookup "status" = some (.str "unknown"))
    ∧ (d.lookup "predictions" = Option.none →
        (extractInsights d).lookup "predictions" = some (.list []))
    ∧ (d.lookup "detections" = Option.none →
        (extractInsights d).lookup "detections" = some (.list []))
    ∧ (d.lookup "labels" = Option.none →
        (extractInsights d).lookup "labels" = some (.list []))
    ∧ (d.lookup "metadata" = Option.none →
        (extractInsights d).lookup "metadata" = some (.dict []))
    ∧ (d.lookup "confidence" = Option.none →
        (extractInsights d).lookup "confidence" = some .none)
    ∧ ((extractInsights d).lookup "results").isSome =
        (d.lookup "results").isSome
    ∧ ((extractInsights d).lookup "analysis").isSome =
        (d.lookup "analysis").isSome
    ∧ ((extractInsights d).lookup "objects").isSome =
        (d.lookup "objects").isSome := by
  refine ⟨?_, ?_, ?_, ?_, ?_, ?_, ?_, ?_, ?_, ?_⟩
  · simp [extractInsights, List.lookup]
  · intro h; simp [extractInsights, pyGet, h, List.lookup]
  · intro h; simp [extractInsights, pyGet, h, List.lookup]
  · intro h; simp [extractInsights, pyGet, h, List.lookup]
  · intro h; simp [extractInsights, pyGet, h, List.lookup]
  · intro h; simp [extractInsights, pyGet, h, List.lookup]
  · intro h; simp [extractInsights, pyGet, h, List.lookup]
  · rcases hr : d.lookup "results" <;> rcases ha : d.lookup "analysis" <;>
      rcases ho : d.lookup "objects" <;>
      simp [extractInsights, hr, ha, ho, List.lookup]
  · rcases hr : d.lookup "results" <;> rcases ha : d.lookup "analysis" <;>
      rcases ho : d.lookup "objects" <;>
      simp [extractInsights, hr, ha, ho, List.lookup]
  · rcases hr : d.lookup "results" <;> rcases ha : d.lookup "analysis" <;>
      rcases ho : d.lookup "objects" <;>
      simp [extractInsights, hr, ha, ho, List.lookup]

/-- C2 witness: with payload `{"results": 1}` the defaults fire and the
`results` key is carried through. -/
theorem c2_normalization_defaults_witness :
    (extractInsights [("results", Py.int 1)]).lookup "status" =
      some (.str "unknown")
    ∧ (extractInsights [("results", Py.int 1)]).lookup "confidence" =
      some .none
    ∧ ((extractInsights [("results", Py.int 1)]).lookup "results").isSome =
      true := by
  obtain ⟨h1, h2, h3, h4, h5, h6, h7, h8, h9, h10⟩ :=
    c2_normalization_defaults [("results", Py.int 1)]
  exact ⟨h2 rfl, h7 rfl, h8.trans rfl⟩

/-- The payload keys the Inference Client recognizes and copies into the
normalized insights. -/
def recognizedKeys : List String :=
  ["status", "predictions", "confidence", "detections", "labels",
   "metadata", "results", "analysis", "objects"]

/-- C10: for every recognized key present in the payload, the normalized
field is exactly the value from the payload — defaults apply only on absence, so
e.g. a payload `{"status": null}` normalizes to a `null` status, not
`"unknown"`. -/
theorem c10_present_keys_copied_exactly (d : List (String × Py))
    (k : String) (v : Py) (hk : k ∈ recognizedKeys)
    (hv : d.lookup k = some v) :
    (extractInsights d).lookup k = some v := by
  simp only [recognizedKeys, List.mem_cons, List.not_mem_nil, or_false] at hk
  rcases hk with rfl | rfl | rfl | rfl | rfl | rfl | rfl | rfl | rfl <;>
    rcases hr : d.lookup "results" <;> rcases ha : d.lookup "analysis" <;>
    rcases ho : d.lookup "objects" <;>
    simp [extractInsights, pyGet, hv, hr, ha, ho, List.lookup]

/-- C10 witness: `{"status": null}` yields a `null` normalized status. -/
theorem c10_present_keys_copied_exactly_witness :
    "status" ∈ recognizedKeys
    ∧ (extractInsights [("status", Py.none)]).lookup "status" =
        some Py.none :=
  ⟨by simp [recognizedKeys],
   c10_present_keys_copied_exactly [("status", Py.none)] "status" Py.none
     (by simp [recognizedKeys]) rfl⟩

/-- C3 counterexample: with the image file present and a 200 response
whose body parses to a JSON array (structured data, but not a mapping),
`run_dial_inference` reaches `json_data.get` on a list and raises an
`AttributeError` — an outcome that is none of the four documented failure
kinds and not a success, refuting "fails with exactly one of four failure
kinds". -/
theorem c3_counterexample :
    run_dial_inference ⟨true, .response 200 [] (some (.list []))⟩ "img.jpg"
      = .typeError
    ∧ (run_dial_inference ⟨true, .response 200 [] (some (.list []))⟩
        "img.jpg").isClassifiedFailure = false
    ∧ (run_dial_inference ⟨true, .response 200 [] (some (.list []))⟩
        "img.jpg").isSuccess = false :=
  ⟨rfl, rfl, rfl⟩

/-- C3 amended: the four classified failures match their causes — absent
file yields `NotFound` with the offending path; a 4xx/5xx status (the
statuses `raise_for_status` raises on; a 3xx that slips through is *not*
an `HttpError` and proceeds to body parsing) yields `HttpError` with the
status and a ≤200-character body excerpt; a transport failure yields
`NetworkError`; an unparseable body on a non-error status yields
`MalformedResponse` with a ≤200-character excerpt — while a non-error
status whose body parses to a non-mapping raises an unclassified
`AttributeError` instead of any of the four kinds. -/
theorem c3_failure_taxonomy (env : InferEnv) (path : String)
    (status : Nat) (text : List Char) (json : Option Py) :
    (env.fileExists = false → run_dial_inference env path = .notFound path)
    ∧ (env.fileExists = true → env.http = .transportError →
        run_dial_inference env path = .networkError)
    ∧ (env.fileExists = true → env.http = .response status text json →
        400 ≤ status → status < 600 →
        run_dial_inference env path = .httpError status (text.take 200)
        ∧ (text.take 200).length ≤ 200)
    ∧ (env.fileExists = true → env.http = .response status text json →
        ¬(400 ≤ status ∧ status < 600) → json = Option.none →
        run_dial_inference env path = .malformedResponse (text.take 200)
        ∧ (text.take 200).length ≤ 200)
    ∧ (∀ v : Py, env.fileExists = true → env.http = .response status text json →
        ¬(400 ≤ status ∧ status < 600) → json = some v → v.isDict = false →
        run_dial_inference env path = .typeError)
    ∧ (∀ d : List (String × Py), env.fileExists = true →
        env.http = .response status text json →
        ¬(400 ≤ status ∧ status < 600) → json = some (.dict d) →
        run_dial_inference env path = .success (extractInsights d)) := by
  obtain ⟨fe, http⟩ := env
  have hlen : (text.take 200).length ≤ 200 := by
    rw [List.length_take]; exact Nat.min_le_left _ _
  refine ⟨?_, ?_, ?_, ?_, ?_, ?_⟩
  · intro h; subst h; rfl
  · intro h1 h2; subst h1; subst h2; rfl
  · intro h1 h2 h3 h4; subst h1; subst h2
    exact ⟨by simp [run_dial_inference, if_pos (And.intro h3 h4)], hlen⟩
  · intro h1 h2 h3 h4; subst h1; subst h2; subst h4
    exact ⟨by simp [run_dial_inference, if_neg h3], hlen⟩
  · intro v h1 h2 h3 h4 h5; subst h1; subst h2; subst h4
    cases v <;> simp_all [run_dial_inference, if_neg h3, Py.isDict]
  · intro d h1 h2 h3 h4; subst h1; subst h2; subst h4
    simp [run_dial_inference, if_neg h3]

/-- C3 amended witness: the taxonomy at concrete inputs — a missing file,
an HTTP 500 with body "server error", and a 200 with an unparseable
body. -/
theorem c3_failure_taxonomy_witness :
    run_dial_inference ⟨false, .transportError⟩ "missing.jpg" =
      .notFound "missing.jpg"
    ∧ run_dial_inference
        ⟨true, .response 500 ("server error".data) Option.none⟩ "img.jpg" =
      .httpError 500 ("server error".data.take 200)
    ∧ run_dial_inference
        ⟨true, .response 200 ("not json".data) Option.none⟩ "img.jpg" =
      .malformedResponse ("not json".data.take 200) :=
  ⟨(c3_failure_taxonomy ⟨false, .transportError⟩ "missing.jpg" 0 []
      Option.none).1 rfl,
   ((c3_failure_taxonomy ⟨true, .response 500 ("server error".data)
        Option.none⟩ "img.jpg" 500 ("server error".data) Option.none).2.2.1
      rfl rfl (by decide) (by decide)).1,
   ((c3_failure_taxonomy ⟨true, .response 200 ("not json".data)
        Option.none⟩ "img.jpg" 200 ("not json".data) Option.none).2.2.2.1
      rfl rfl (by decide) rfl).1⟩

/-- C6: every capture session acquired in network mode or in local mode —
probe sessions for non-selected indices and sessions whose reads fail
included — is released on every exit path: the multiset of released
handles equals the multiset of opened handles for every environment. -/
theorem c6_sessions_released :
    (∀ (url : String) (nenv : NetEnv),
      tracesBalanced (acquireNetwork url nenv).trace)
    ∧ (∀ lenv : LocalEnv, tracesBalanced (acquireLocal lenv).trace) := by
  constructor
  · intro url nenv
    obtain ⟨o, r⟩ := nenv
    by_cases h : url.trim = "" <;> cases o <;> cases r <;>
      simp [acquireNetwork, h, tracesBalanced, opensOf, releasesOf]
  · decide

/-- Number of device indices the probe visited: up to and including the
selected index, or all four when none was selected. -/
def numProbed (env : LocalEnv) : Nat :=
  match probeSelected env with
  | some k => k + 1
  | Option.none => 4

/-- C7: the local-mode probe visits indices 0,1,2,3 strictly in order and
each at most once (its opened-handle list is exactly `List.range` of the
number of visited indices — so there is no retry beyond the four-index
probe); within the probe each session reporting `isOpened()` is read
exactly once and no unopened session is read; the selected index is the
first whose session opens and whose read yields a frame; every probed
session except the selected one is released inside the probe; and when no
index yields a frame, the device-unavailable error and the remediation
guidance suggesting the network-camera fallback are displayed.  (After the
probe, the single post-probe read of spec §4.1 happens on the selected session,
which the `finally` block releases.) -/
theorem c7_local_probe (env : LocalEnv) :
    probeSelected env =
      List.find? (fun i => env.opensAt i && env.readsAt i) [0, 1, 2, 3]
    ∧ opensOf (probeTrace env) = List.range (numProbed env)
    ∧ ((List.range 4).all fun i =>
        countReads (probeTrace env) i ==
          countOpens (probeTrace env) i *
            (if env.opensAt i then 1 else 0)) = true
    ∧ releasesOf (probeTrace env) =
        (match probeSelected env with
         | some k => (opensOf (probeTrace env)).filter (fun i => !(i == k))
         | Option.none => opensOf (probeTrace env))
    ∧ (probeSelected env = Option.none →
        hasErrorMsg (acquireLocal env).trace webcamUnavailableMsg = true
        ∧ hasInfoMsg (acquireLocal env).trace networkFallbackMsg = true) := by
  revert env; decide

/-- C7 witness: with no camera available the probe selects nothing and the
device-unavailable error plus the network-camera fallback guidance are
shown; with camera 1 available (camera 0 opening but unreadable) the probe
selects index 1. -/
theorem c7_local_probe_witness :
    (hasErrorMsg
      (acquireLocal ⟨false, false, false, false, false, false, false, false,
        false⟩).trace webcamUnavailableMsg = true
    ∧ hasInfoMsg
      (acquireLocal ⟨false, false, false, false, false, false, false, false,
        false⟩).trace networkFallbackMsg = true)
    ∧ probeSelected ⟨true, true, false, false, false, true, false, false,
        true⟩ = some 1 :=
  ⟨(c7_local_probe ⟨false, false, false, false, false, false, false, false,
      false⟩).2.2.2.2 rfl,
   ((c7_local_probe ⟨true, true, false, false, false, true, false, false,
      true⟩).1).trans rfl⟩

/-- C5: for every acquired frame, the pipeline creates the snapshots
directory when it is missing (surfacing the storage failure and aborting
when creation fails), attempts the write under the timestamped name
`snapshots/snapshot_<timestamp>.jpg` (the timestamp string is the
`strftime("%Y%m%d_%H%M%S")` result), and on a failed `cv2.imwrite`
surfaces the save error and aborts the rest of the pipeline: no frame
display and no inference call appear in the trace. -/
theorem c5_persister_aborts_on_failure (env : AppEnv) (caption : String) :
    (env.dirExists = false →
      Event.mkdirCall ∈ (persistAndInfer env caption).2)
    ∧ (env.dirExists = false → env.mkdirOk = false →
        hasErrorMsg (persistAndInfer env caption).2 mkdirErrorMsg = true
        ∧ hasImwrite (persistAndInfer env caption).2 = false
        ∧ hasDisplayFrame (persistAndInfer env caption).2 = false
        ∧ hasInferenceCall (persistAndInfer env caption).2 = false)
    ∧ ((env.dirExists = true ∨ env.mkdirOk = true) →
        Event.imwriteCall (snapshotName env.timestamp) ∈
          (persistAndInfer env caption).2)
    ∧ ((env.dirExists = true ∨ env.mkdirOk = true) → env.imwriteOk = false →
        hasErrorMsg (persistAndInfer env caption).2
          (saveErrorMsg (snapshotName env.timestamp)) = true
        ∧ hasDisplayFrame (persistAndInfer env caption).2 = false
        ∧ hasInferenceCall (persistAndInfer env caption).2 = false) := by
  obtain ⟨src, url, ne, le, dirE, mkOk, imwOk, ts, enable, ienv⟩ := env
  rcases hr : run_dial_inference ienv (snapshotName ts) <;>
    cases dirE <;> cases mkOk <;> cases imwOk <;> cases enable <;>
      simp [persistAndInfer, hr, hasErrorMsg, hasImwrite, hasDisplayFrame,
        hasInferenceCall]

/-- Concrete environment for the C5 witness: the directory is missing but
creatable, and `cv2.imwrite` fails. -/
def c5Env : AppEnv :=
  { source := .testMode, cameraUrl := "",
    netEnv := ⟨false, false⟩,
    localEnv := ⟨false, false, false, false, false, false, false, false,
      false⟩,
    dirExists := false, mkdirOk := true, imwriteOk := false,
    timestamp := "20240101_120000", enableDialInference := true,
    inferEnv := ⟨true, .transportError⟩ }

/-- C5 witness: with the directory missing and the write failing, the
directory is created, the timestamped write is attempted, the save error
is surfaced and neither a frame display nor an inference call occurs. -/
theorem c5_persister_aborts_on_failure_witness :
    Event.mkdirCall ∈ (persistAndInfer c5Env "Test/Demo Image").2
    ∧ Event.imwriteCall "snapshots/snapshot_20240101_120000.jpg" ∈
        (persistAndInfer c5Env "Test/Demo Image").2
    ∧ hasErrorMsg (persistAndInfer c5Env "Test/Demo Image").2
        (saveErrorMsg "snapshots/snapshot_20240101_120000.jpg") = true
    ∧ hasDisplayFrame (persistAndInfer c5Env "Test/Demo Image").2 = false
    ∧ hasInferenceCall (persistAndInfer c5Env "Test/Demo Image").2 = false := by
  obtain ⟨h1, h2, h3, h4⟩ :=
    c5_persister_aborts_on_failure c5Env "Test/Demo Image"
  exact ⟨h1 rfl, h3 (Or.inr rfl), (h4 (Or.inr rfl) rfl).1,
    (h4 (Or.inr rfl) rfl).2.1, (h4 (Or.inr rfl) rfl).2.2⟩

/-- Concrete environment for C1: test-mode capture with directory and
write succeeding, inference enabled and the DIAL request failing at the
transport level. -/
def c1Env : AppEnv :=
  { source := .testMode, cameraUrl := "",
    netEnv := ⟨false, false⟩,
    localEnv := ⟨false, false, false, false, false, false, false, false,
      false⟩,
    dirExists := true, mkdirOk := true, imwriteOk := true,
    timestamp := "20240101_120000", enableDialInference := true,
    inferEnv := ⟨true, .transportError⟩ }

/-- C1 counterexample: in `c1Env` the inference step fails (network
error), yet at the end of the interaction `last_snapshot_file` is *set*
to the freshly saved snapshot path (it was assigned at src/app.py line
483, before inference ran, and no failure handler clears it) — refuting
"both persisted state variables are left cleared". -/
theorem c1_counterexample :
    (run_dial_inference c1Env.inferEnv
      (snapshotName c1Env.timestamp)).isSuccess = false
    ∧ (captureInteraction c1Env ⟨Option.none, Option.none⟩).1.dial_insights
      = Option.none
    ∧ (captureInteraction c1Env
        ⟨Option.none, Option.none⟩).1.last_snapshot_file
      = some "snapshots/snapshot_20240101_120000.jpg" :=
  ⟨rfl, rfl, rfl⟩

/-- C1 amended: in every capture interaction that reaches inference, a
failed inference leaves `dial_insights` cleared but leaves
`last_snapshot_file` holding the just-saved snapshot path (that variable
is overwritten on every successful save, regardless of inference
outcome), while `dial_insights` is overwritten only when inference
completes fully successfully. -/
theorem c1_failed_inference_state (env : AppEnv) (s0 : SessionState)
    (hacq : (acquireFrame env).frame.isSome = true)
    (hdir : env.dirExists = true ∨ env.mkdirOk = true)
    (hwrite : env.imwriteOk = true)
    (henable : env.enableDialInference = true) :
    ((run_dial_inference env.inferEnv
        (snapshotName env.timestamp)).isSuccess = false →
      (captureInteraction env s0).1 =
        ⟨Option.none, some (snapshotName env.timestamp)⟩)
    ∧ (∀ ins, run_dial_inference env.inferEnv (snapshotName env.timestamp)
        = .success ins →
      (captureInteraction env s0).1 =
        ⟨some (.dict ins), some (snapshotName env.timestamp)⟩) := by
  have hcond : ¬(env.dirExists = false ∧ env.mkdirOk = false) := by
    rcases hdir with h | h <;> simp [h]
  rcases hf : (acquireFrame env).frame with _ | f
  · rw [hf] at hacq; simp at hacq
  · constructor
    · intro hfail
      rcases hro : run_dial_inference env.inferEnv
          (snapshotName env.timestamp) with p | ⟨st, ex⟩ | _ | ex | _ | ins <;>
        rw [hro] at hfail <;>
        simp [InferOutcome.isSuccess] at hfail <;>
        simp [captureInteraction, hf, persistAndInfer, hro, henable,
          hwrite, hcond]
    · intro ins hro
      simp [captureInteraction, hf, persistAndInfer, hro, henable,
        hwrite, hcond]

/-- C1 amended witness: the amended statement evaluated at `c1Env`. -/
theorem c1_failed_inference_state_witness :
    (captureInteraction c1Env ⟨Option.none, Option.none⟩).1 =
      ⟨Option.none, some (snapshotName "20240101_120000")⟩ :=
  (c1_failed_inference_state c1Env ⟨Option.none, Option.none⟩ rfl
    (Or.inl rfl) rfl rfl).1 rfl

/-- The snapshot filename is never the empty string (so it is truthy for
the redisplay guard at src/app.py line 567). -/
theorem snapshotName_isEmpty_false (ts : String) :
    (snapshotName ts).isEmpty = false := by
  rw [Bool.eq_false_iff]
  intro h
  have h2 := (String.isEmpty_iff _).1 h
  have h3 := congrArg String.length h2
  simp [snapshotName, String.length_append] at h3
  exact absurd h3.2 (by decide)

/-- C9: rendering is a pure function of its input — the sections rendered
right after a successful inference (src/app.py line 511) and the sections
rendered by the subsequent stored-state redisplay (line 570) are the very
same value `display_dial_insights (.dict ins) (some filename)`, so
rendering the same insights twice produces identical section content. -/
theorem c9_render_idempotent (env : AppEnv) (s0 : SessionState)
    (ins : List (String × Py))
    (hacq : (acquireFrame env).frame.isSome = true)
    (hdir : env.dirExists = true ∨ env.mkdirOk = true)
    (hwrite : env.imwriteOk = true)
    (henable : env.enableDialInference = true)
    (hro : run_dial_inference env.inferEnv (snapshotName env.timestamp)
      = .success ins) :
    Event.renderInsights (display_dial_insights (.dict ins)
        (some (snapshotName env.timestamp)))
      ∈ (captureInteraction env s0).2
    ∧ rerenderStored (captureInteraction env s0).1 =
      display_dial_insights (.dict ins)
        (some (snapshotName env.timestamp)) := by
  have hcond : ¬(env.dirExists = false ∧ env.mkdirOk = false) := by
    rcases hdir with h | h <;> simp [h]
  rcases hf : (acquireFrame env).frame with _ | f
  · rw [hf] at hacq; simp at hacq
  · constructor
    · simp [captureInteraction, hf, persistAndInfer, hro, henable,
        hwrite, hcond]
    · simp [captureInteraction, hf, persistAndInfer, hro, henable,
        hwrite, hcond, rerenderStored, snapshotName_isEmpty_false]

/-- Environment for the C9 witness: like `c1Env` but with a successful
inference returning the payload `{"labels": ["cat"]}`. -/
def c9Env : AppEnv :=
  { source := .testMode, cameraUrl := "",
    netEnv := ⟨false, false⟩,
    localEnv := ⟨false, false, false, false, false, false, false, false,
      false⟩,
    dirExists := true, mkdirOk := true, imwriteOk := true,
    timestamp := "20240101_120000", enableDialInference := true,
    inferEnv := ⟨true, .response 200 []
      (some (.dict [("labels", .list [.str "cat"])]))⟩ }

/-- C9 witness: in `c9Env` both renders produce the identical section
list. -/
theorem c9_render_idempotent_witness :
    Event.renderInsights (display_dial_insights
        (.dict (extractInsights [("labels", Py.list [Py.str "cat"])]))
        (some (snapshotName "20240101_120000")))
      ∈ (captureInteraction c9Env ⟨Option.none, Option.none⟩).2
    ∧ rerenderStored (captureInteraction c9Env ⟨Option.none, Option.none⟩).1
      = display_dial_insights
        (.dict (extractInsights [("labels", Py.list [Py.str "cat"])]))
        (some (snapshotName "20240101_120000")) :=
  c9_render_idempotent c9Env ⟨Option.none, Option.none⟩
    (extractInsights [("labels", Py.list [Py.str "cat"])])
    rfl (Or.inl rfl) rfl rfl rfl

/-!
## Presenter section analysis (for C4)
-/

/-- A value that is "absent or empty": `None`, the empty string, the empty
list or the empty mapping (`pyGet` yields `None` for an absent key). -/
def emptyish : Py → Bool
  | .none => true
  | .str s => s.isEmpty
  | .list xs => xs.isEmpty
  | .dict xs => xs.isEmpty
  | _ => false

theorem emptyish_not_truthy (v : Py) (h : emptyish v = true) :
    v.truthy = false := by
  cases v <;> simp_all [emptyish, Py.truthy]

theorem ite_singleton_length (c : Prop) [Decidable c] (x : Section) :
    (if c then [x] else ([] : List Section)).length ≤ 1 := by
  split <;> simp

theorem ite_singleton_mem (c : Prop) [Decidable c] (x y : Section)
    (h : y ∈ (if c then [x] else ([] : List Section))) : y = x := by
  split at h <;> simp_all

theorem captionSec_length (snap : Option String) :
    (captionSec snap).length ≤ 1 := by
  rcases snap with _ | f
  · simp [captionSec]
  · by_cases h : f.isEmpty = true <;> simp [captionSec, h]

theorem captionSec_slot (snap : Option String) :
    ∀ x ∈ captionSec snap, slotOf x = 0 := by
  intro x hx
  rcases snap with _ | f
  · simp [captionSec] at hx
  · by_cases h : f.isEmpty = true
    · simp [captionSec, h] at hx
    · simp [captionSec, h] at hx
      simp [hx, slotOf, kindSlot]

theorem statusSec_length (d : List (String × Py)) :
    (statusSec d).length ≤ 1 := by
  unfold statusSec; exact ite_singleton_length _ _

theorem statusSec_slot (d : List (String × Py)) :
    ∀ x ∈ statusSec d, slotOf x = 1 := by
  intro x hx
  unfold statusSec at hx
  simp [ite_singleton_mem _ _ x hx, slotOf, kindSlot]

theorem statusSec_empty (d : List (String × Py))
    (h : emptyish (pyGet d "status" .none) = true) : statusSec d = [] := by
  unfold statusSec
  simp [emptyish_not_truthy _ h]

theorem confidenceSec_length (d : List (String × Py)) :
    (confidenceSec d).length ≤ 1 := by
  unfold confidenceSec; split <;> simp

theorem confidenceSec_slot (d : List (String × Py)) :
    ∀ x ∈ confidenceSec d, slotOf x = 2 := by
  intro x hx
  unfold confidenceSec at hx
  split at hx <;> simp_all [slotOf, kindSlot]

theorem confidenceSec_none (d : List (String × Py))
    (h : pyGet d "confidence" .none = .none) : confidenceSec d = [] := by
  unfold confidenceSec
  simp [h, Py.isNone]

theorem tableSec_length (kind : SectionKind) (rowKey k : String)
    (d : List (String × Py)) : (tableSec kind rowKey k d).length ≤ 1 := by
  unfold tableSec
  split
  · split
    · simp
    · split
      · split <;> simp
      · simp
  · simp

theorem tableSec_slot (kind : SectionKind) (rowKey k : String)
    (d : List (String × Py)) :
    ∀ x ∈ tableSec kind rowKey k d, slotOf x = kindSlot kind := by
  intro x hx
  unfold tableSec at hx
  split at hx
  · split at hx
    · simp_all [slotOf]
    · split at hx
      · split at hx <;> simp_all [slotOf]
      · simp at hx
  · simp at hx

theorem tableSec_empty (kind : SectionKind) (rowKey k : String)
    (d : List (String × Py))
    (h : emptyish (pyGet d k .none) = true) :
    tableSec kind rowKey k d = [] := by
  unfold tableSec
  simp [emptyish_not_truthy _ h]

theorem labelsSec_length (d : List (String × Py)) :
    (labelsSec d).length ≤ 1 := by
  unfold labelsSec
  split
  · split
    · simp
    · split <;> simp
  · simp

theorem labelsSec_slot (d : List (String × Py)) :
    ∀ x ∈ labelsSec d, slotOf x = 5 := by
  intro x hx
  unfold labelsSec at hx
  split at hx
  · split at hx
    · simp_all [slotOf, kindSlot]
    · split at hx <;> simp_all [slotOf, kindSlot]
  · simp at hx

theorem labelsSec_empty (d : List (String × Py))
    (h : emptyish (pyGet d "labels" .none) = true) : labelsSec d = [] := by
  unfold labelsSec
  simp [emptyish_not_truthy _ h]

theorem resultsSec_length (d : List (String × Py)) :
    (resultsSec d).length ≤ 1 := by
  unfold resultsSec; exact ite_singleton_length _ _

theorem resultsSec_slot (d : List (String × Py)) :
    ∀ x ∈ resultsSec d, slotOf x = 6 := by
  intro x hx
  unfold resultsSec at hx
  simp [ite_singleton_mem _ _ x hx, slotOf, kindSlot]

theorem resultsSec_empty (d : List (String × Py))
    (h : emptyish (pyGet d "results" .none) = true) : resultsSec d = [] := by
  unfold resultsSec
  simp [emptyish_not_truthy _ h]

theorem analysisSec_length (d : List (String × Py)) :
    (analysisSec d).length ≤ 1 := by
  unfold analysisSec; exact ite_singleton_length _ _

theorem analysisSec_slot (d : List (String × Py)) :
    ∀ x ∈ analysisSec d, slotOf x = 7 := by
  intro x hx
  unfold analysisSec at hx
  simp [ite_singleton_mem _ _ x hx, slotOf, kindSlot]

theorem analysisSec_empty (d : List (String × Py))
    (h : emptyish (pyGet d "analysis" .none) = true) :
    analysisSec d = [] := by
  unfold analysisSec
  simp [emptyish_not_truthy _ h]

theorem metadataSec_length (d : List (String × Py)) :
    (metadataSec d).length ≤ 1 := by
  unfold metadataSec; exact ite_singleton_length _ _

theorem metadataSec_slot (d : List (String × Py)) :
    ∀ x ∈ metadataSec d, slotOf x = 9 := by
  intro x hx
  unfold metadataSec at hx
  simp [ite_singleton_mem _ _ x hx, slotOf, kindSlot]

theorem metadataSec_empty (d : List (String × Py))
    (h : emptyish (pyGet d "metadata" .none) = true) :
    metadataSec d = [] := by
  unfold metadataSec
  simp [emptyish_not_truthy _ h]

theorem rawResponseSec_slot (d : List (String × Py)) :
    ∀ x ∈ rawResponseSec d, slotOf x = 10 := by
  intro x hx
  simp [rawResponseSec] at hx
  simp [hx, slotOf, kindSlot]

theorem map_slot_sublist_of (l : List Section) (n : Nat) (h1 : l.length ≤ 1)
    (h2 : ∀ x ∈ l, slotOf x = n) : (l.map slotOf).Sublist [n] := by
  rcases l with _ | ⟨x, _ | ⟨y, tl⟩⟩
  · simp
  · simp [h2 x (List.mem_singleton_self x)]
  · simp at h1

/-- Every section of the dict-shaped rendering belongs to one of the
eleven blocks, which determines its slot. -/
theorem display_mem_slot (d : List (String × Py)) (snap : Option String)
    (s : Section) (hs : s ∈ display_dial_insights (.dict d) snap) :
    (s ∈ captionSec snap ∧ slotOf s = 0)
    ∨ (s ∈ statusSec d ∧ slotOf s = 1)
    ∨ (s ∈ confidenceSec d ∧ slotOf s = 2)
    ∨ (s ∈ predictionsSec d ∧ slotOf s = 3)
    ∨ (s ∈ detectionsSec d ∧ slotOf s = 4)
    ∨ (s ∈ labelsSec d ∧ slotOf s = 5)
    ∨ (s ∈ resultsSec d ∧ slotOf s = 6)
    ∨ (s ∈ analysisSec d ∧ slotOf s = 7)
    ∨ (s ∈ objectsSec d ∧ slotOf s = 8)
    ∨ (s ∈ metadataSec d ∧ slotOf s = 9)
    ∨ (s ∈ rawResponseSec d ∧ slotOf s = 10) := by
  simp only [display_dial_insights, List.mem_append] at hs
  rcases hs with ((((((((((h | h) | h) | h) | h) | h) | h) | h) | h) | h) | h)
  · exact Or.inl ⟨h, captionSec_slot snap s h⟩
  · exact Or.inr (Or.inl ⟨h, statusSec_slot d s h⟩)
  · exact Or.inr (Or.inr (Or.inl ⟨h, confidenceSec_slot d s h⟩))
  · exact Or.inr (Or.inr (Or.inr (Or.inl
      ⟨h, tableSec_slot _ _ _ d s h⟩)))
  · exact Or.inr (Or.inr (Or.inr (Or.inr (Or.inl
      ⟨h, tableSec_slot _ _ _ d s h⟩))))
  · exact Or.inr (Or.inr (Or.inr (Or.inr (Or.inr (Or.inl
      ⟨h, labelsSec_slot d s h⟩)))))
  · exact Or.inr (Or.inr (Or.inr (Or.inr (Or.inr (Or.inr (Or.inl
      ⟨h, resultsSec_slot d s h⟩))))))
  · exact Or.inr (Or.inr (Or.inr (Or.inr (Or.inr (Or.inr (Or.inr (Or.inl
      ⟨h, analysisSec_slot d s h⟩)))))))
  · exact Or.inr (Or.inr (Or.inr (Or.inr (Or.inr (Or.inr (Or.inr (Or.inr
      (Or.inl ⟨h, tableSec_slot _ _ _ d s h⟩))))))))
  · exact Or.inr (Or.inr (Or.inr (Or.inr (Or.inr (Or.inr (Or.inr (Or.inr
      (Or.inr (Or.inl ⟨h, metadataSec_slot d s h⟩)))))))))
  · exact Or.inr (Or.inr (Or.inr (Or.inr (Or.inr (Or.inr (Or.inr (Or.inr
      (Or.inr (Or.inr ⟨h, rawResponseSec_slot d s h⟩)))))))))

theorem predictionsSec_empty (d : List (String × Py))
    (h : emptyish (pyGet d "predictions" .none) = true) :
    predictionsSec d = [] := tableSec_empty _ _ _ d h

theorem detectionsSec_empty (d : List (String × Py))
    (h : emptyish (pyGet d "detections" .none) = true) :
    detectionsSec d = [] := tableSec_empty _ _ _ d h

theorem objectsSec_empty (d : List (String × Py))
    (h : emptyish (pyGet d "objects" .none) = true) :
    objectsSec d = [] := tableSec_empty _ _ _ d h

/-- The slots in their fixed order: caption, status, confidence,
predictions, detections, labels, results, analysis, objects, metadata,
raw response. -/
def canonicalSlots : List Nat := [0, 1, 2, 3, 4, 5, 6, 7, 8, 9, 10]

/-- The section kinds whose blocks are skipped on an absent or empty
value (all fields except the caption, confidence — which is governed by
an `is not None` check — and the always-rendered raw response). -/
def skippableKinds : List SectionKind :=
  [.status, .predictions, .detections, .labels, .results, .analysis,
   .objects, .metadata]

/-- The insights key each section kind reads. -/
def kindKey : SectionKind → String
  | .status => "status"
  | .confidence => "confidence"
  | .predictions => "predictions"
  | .detections => "detections"
  | .labels => "labels"
  | .results => "results"
  | .analysis => "analysis"
  | .objects => "objects"
  | .metadata => "metadata"
  | .rawResponse => "raw_response"
  | .caption => ""

/-- C4 counterexample: the mapping `{"confidence": ""}` has an *empty*
confidence field, yet the Presenter renders a confidence section for it
(the source guards confidence with `is not None`, not truthiness) —
refuting "every absent or empty field skipped without placeholder except
raw_response". -/
theorem c4_counterexample :
    emptyish (Py.str "") = true
    ∧ display_dial_insights (.dict [("confidence", Py.str "")]) Option.none
      = [Section.sec .confidence (.str ""),
         Section.sec .rawResponse (.dict [])] :=
  ⟨rfl, rfl⟩

/-- C4 amended: a non-mapping input renders exactly the single
validation-error section (and rendering is a total function, so it never
halts the surrounding workflow); for a mapping input the sections appear
in the fixed order status, confidence, predictions, detections, labels,
results, analysis, objects, metadata, raw response (their slot sequence is
a sublist of the canonical order), the raw-response section is always
rendered last, every absent-or-empty field other than confidence is
skipped without placeholder, and confidence is skipped exactly when it is
absent or null — a present non-null confidence is rendered even when
empty. -/
theorem c4_presenter_sections (v : Py) (snap : Option String) :
    (v.isDict = false →
      display_dial_insights v snap = [Section.invalid invalidInsightsMsg])
    ∧ (∀ d, v = Py.dict d →
        ((display_dial_insights v snap).map slotOf).Sublist canonicalSlots
        ∧ (display_dial_insights v snap).getLast? =
            some (.sec .rawResponse (pyGet d "raw_response" (.dict [])))
        ∧ (∀ k ∈ skippableKinds,
            emptyish (pyGet d (kindKey k) .none) = true →
            ∀ s ∈ display_dial_insights v snap, slotOf s ≠ kindSlot k)
        ∧ (pyGet d "confidence" .none = .none →
            ∀ s ∈ display_dial_insights v snap,
              slotOf s ≠ kindSlot .confidence)) := by
  constructor
  · intro hnd
    cases v <;> first
      | rfl
      | simp [Py.isDict] at hnd
  · intro d hv
    subst hv
    refine ⟨?_, ?_, ?_, ?_⟩
    · have h0 := map_slot_sublist_of _ 0 (captionSec_length snap)
        (captionSec_slot snap)
      have h1 := map_slot_sublist_of _ 1 (statusSec_length d)
        (statusSec_slot d)
      have h2 := map_slot_sublist_of _ 2 (confidenceSec_length d)
        (confidenceSec_slot d)
      have h3 := map_slot_sublist_of _ 3
        (tableSec_length .predictions "prediction" "predictions" d)
        (tableSec_slot .predictions "prediction" "predictions" d)
      have h4 := map_slot_sublist_of _ 4
        (tableSec_length .detections "detection" "detections" d)
        (tableSec_slot .detections "detection" "detections" d)
      have h5 := map_slot_sublist_of _ 5 (labelsSec_length d)
        (labelsSec_slot d)
      have h6 := map_slot_sublist_of _ 6 (resultsSec_length d)
        (resultsSec_slot d)
      have h7 := map_slot_sublist_of _ 7 (analysisSec_length d)
        (analysisSec_slot d)
      have h8 := map_slot_sublist_of _ 8
        (tableSec_length .objects "object" "objects" d)
        (tableSec_slot .objects "object" "objects" d)
      have h9 := map_slot_sublist_of _ 9 (metadataSec_length d)
        (metadataSec_slot d)
      have h10 := map_slot_sublist_of _ 10 (by simp [rawResponseSec])
        (rawResponseSec_slot d)
      show (((captionSec snap ++ statusSec d ++ confidenceSec d ++
          predictionsSec d ++ detectionsSec d ++ labelsSec d ++
          resultsSec d ++ analysisSec d ++ objectsSec d ++ metadataSec d ++
          rawResponseSec d).map slotOf).Sublist canonicalSlots)
      simp only [List.map_append]
      exact (((((((((h0.append h1).append h2).append h3).append
        h4).append h5).append h6).append h7).append h8).append h9).append
        h10
    · show ((captionSec snap ++ statusSec d ++ confidenceSec d ++
          predictionsSec d ++ detectionsSec d ++ labelsSec d ++
          resultsSec d ++ analysisSec d ++ objectsSec d ++ metadataSec d) ++
          rawResponseSec d).getLast? = _
      rw [show rawResponseSec d =
        [Section.sec .rawResponse (pyGet d "raw_response" (.dict []))]
        from rfl, List.getLast?_concat]
    · intro k hk hempty s hs
      simp only [skippableKinds, List.mem_cons, List.not_mem_nil,
        or_false] at hk
      rcases hk with rfl | rfl | rfl | rfl | rfl | rfl | rfl | rfl <;>
      · rcases display_mem_slot d snap s hs with ⟨hm, he⟩ | ⟨hm, he⟩ |
          ⟨hm, he⟩ | ⟨hm, he⟩ | ⟨hm, he⟩ | ⟨hm, he⟩ | ⟨hm, he⟩ | ⟨hm, he⟩ |
          ⟨hm, he⟩ | ⟨hm, he⟩ | ⟨hm, he⟩ <;>
          first
            | (rw [he]; decide)
            | (rw [statusSec_empty d hempty] at hm; simp at hm)
            | (rw [predictionsSec_empty d hempty] at hm; simp at hm)
            | (rw [detectionsSec_empty d hempty] at hm; simp at hm)
            | (rw [labelsSec_empty d hempty] at hm; simp at hm)
            | (rw [resultsSec_empty d hempty] at hm; simp at hm)
            | (rw [analysisSec_empty d hempty] at hm; simp at hm)
            | (rw [objectsSec_empty d hempty] at hm; simp at hm)
            | (rw [metadataSec_empty d hempty] at hm; simp at hm)
    · intro hc s hs
      rcases display_mem_slot d snap s hs with ⟨hm, he⟩ | ⟨hm, he⟩ |
        ⟨hm, he⟩ | ⟨hm, he⟩ | ⟨hm, he⟩ | ⟨hm, he⟩ | ⟨hm, he⟩ | ⟨hm, he⟩ |
        ⟨hm, he⟩ | ⟨hm, he⟩ | ⟨hm, he⟩ <;>
        first
          | (rw [he]; decide)
          | (rw [confidenceSec_none d hc] at hm; simp at hm)

/-- C4 amended witness: a non-mapping input yields the single
validation-error section; for `{"status": ""}` the raw-response section is
rendered last and, the status field being empty, no status section
appears. -/
theorem c4_presenter_sections_witness :
    display_dial_insights (Py.int 5) Option.none =
      [Section.invalid invalidInsightsMsg]
    ∧ (display_dial_insights (.dict [("status", Py.str "")])
        Option.none).getLast? =
      some (.sec .rawResponse
        (pyGet [("status", Py.str "")] "raw_response" (.dict [])))
    ∧ slotOf (Section.sec .rawResponse (.dict [])) ≠ kindSlot .status := by
  refine ⟨?_, ?_, ?_⟩
  · exact (c4_presenter_sections (Py.int 5) Option.none).1 rfl
  · exact ((c4_presenter_sections (.dict [("status", Py.str "")])
      Option.none).2 _ rfl).2.1
  · exact ((c4_presenter_sections (.dict [("status", Py.str "")])
      Option.none).2 _ rfl).2.2.1 .status (by simp [skippableKinds]) rfl _
      (List.mem_singleton_self _)
